import Mathlib

/-!
Shallow embedding of the prediction pipeline of `src/app2.py`, a Streamlit
clinical decision-support calculator (breast-cancer 3-year OS prediction).

The core pipeline in the source is:
  * six sidebar widgets constraining the raw inputs (lines 141-204),
  * `load_model` (lines 92-100): `joblib.load` of `svm_model.pkl`; on
    `FileNotFoundError` it shows an error message and returns `None`,
  * the prediction block (lines 212-268): guarded by `if predict and model:`,
    builds a one-row `pd.DataFrame` with six fixed, named columns, calls
    `model.predict_proba(X)[0, 1]`, renders the probability, and branches on
    `prob >= 0.5` into a fixed high-risk guidance block (three bullet
    recommendations) or a fixed low-risk reassurance block; any exception from
    the classifier call is caught and rendered as `Prediction Error: {e}`.

Floats are modelled as rationals; the opaque classifier artifact is modelled
as a function that either returns a probability or fails with a message
(a raised exception carrying its cause).
-/

/-- Raw patient input: the six values produced by the sidebar widgets
(lines 141-204 of `src/app2.py`).  Codes are the first components of the
option tuples; `nlr` is the `number_input` value. -/
structure PatientInput where
  age : Nat
  degree : Nat
  t_stage : Nat
  ln_status : Nat
  molecular : Nat
  nlr : ℚ
  deriving DecidableEq, Repr

/-- Option codes offered by the Age Group selectbox (lines 141-149). -/
def ageOptions : List Nat := [1, 2, 3]

/-- Option codes offered by the Differentiation Grade selectbox (lines 152-160). -/
def degreeOptions : List Nat := [1, 2, 3]

/-- Option codes offered by the T Stage selectbox (lines 163-172). -/
def tStageOptions : List Nat := [1, 2, 3, 4]

/-- Option codes offered by the Lymph Node Metastasis radio (lines 175-183). -/
def lnOptions : List Nat := [0, 1]

/-- Option codes offered by the Molecular Subtype selectbox (lines 186-195). -/
def molecularOptions : List Nat := [1, 2, 3, 4]

/-- `min_value` of the NLR `number_input` (line 200). -/
def nlrMin : ℚ := 1 / 10

/-- `max_value` of the NLR `number_input` (line 201). -/
def nlrMax : ℚ := 50

/-- The NLR domain enforced by the `number_input` widget: `min_value=0.1`,
`max_value=50.0`, both inclusive (lines 198-204). -/
def nlrInDomain (x : ℚ) : Bool := (nlrMin ≤ x) && (x ≤ nlrMax)

/-- The NLR domain as the spec declares it: the half-open interval
`(0.1, 50.0]`.  Stated only to compare with `nlrInDomain`, the domain the
widget actually enforces. -/
def specNlrDomain (x : ℚ) : Bool := (nlrMin < x) && (x ≤ nlrMax)

/-- An input is admissible when every field lies in the set its widget
offers: selectboxes and the radio only emit their listed codes, and the
`number_input` enforces its bounds. -/
def admissible (i : PatientInput) : Bool :=
  (i.age ∈ ageOptions : Bool) && (i.degree ∈ degreeOptions : Bool) &&
  (i.t_stage ∈ tStageOptions : Bool) && (i.ln_status ∈ lnOptions : Bool) &&
  (i.molecular ∈ molecularOptions : Bool) && nlrInDomain i.nlr

/-- The fixed column names of the one-row DataFrame handed to the
classifier (lines 216-223). -/
def featureColumns : List String :=
  ["Age", "Degree_of_differentiation", "T_stage", "lymphaden_Status",
   "Molecular_typing", "NLR"]

/-- The single data row of the DataFrame: the six raw values in the fixed
order of line 215. -/
def featureRow (i : PatientInput) : List ℚ :=
  [(i.age : ℚ), (i.degree : ℚ), (i.t_stage : ℚ), (i.ln_status : ℚ),
   (i.molecular : ℚ), i.nlr]

/-- The one-row, named-column DataFrame `X` (lines 214-224). -/
structure DataFrame where
  columns : List String
  row : List ℚ
  deriving DecidableEq, Repr

/-- The Feature Encoder: builds `X = pd.DataFrame([[...]], columns=[...])`
exactly as lines 214-224 do. -/
def encode (i : PatientInput) : DataFrame :=
  { columns := featureColumns, row := featureRow i }

/-- The opaque classifier artifact: given the DataFrame it either returns
`predict_proba(X)[0, 1]` (line 227) or raises, carrying the message of the
raised exception. -/
def Classifier : Type := DataFrame → Except String ℚ

/-- The binary risk tier derived on lines 240-265. -/
inductive Tier where
  | HIGH
  | LOW
  deriving DecidableEq, Repr

/-- Tier assignment: the `if prob >= 0.5` branch on line 240. -/
def tierOf (p : ℚ) : Tier := if p ≥ 1 / 2 then Tier.HIGH else Tier.LOW

/-- The fixed high-risk guidance: the three bullet recommendations of the
`risk-high` block (lines 241-254). -/
def highGuidance : List String :=
  ["Intensified adjuvant therapy",
   "Closer clinical surveillance",
   "More rigorous follow-up schedules"]

/-- The fixed low-risk guidance: the single reassurance sentence of the
`risk-low` block (lines 256-265). -/
def lowGuidance : List String :=
  ["Patients in this group generally have a favorable prognosis under standard treatment."]

/-- The guidance text the claim describes for the HIGH tier: a four-item
list ending in a multidisciplinary-review recommendation.  Stated only to
compare with `highGuidance`, the list the code renders. -/
def specHighGuidance : List String :=
  ["intensified therapy", "closer surveillance", "stricter follow-up",
   "multidisciplinary review"]

/-- Guidance is selected by tier alone (lines 240-265). -/
def guidance : Tier → List String
  | Tier.HIGH => highGuidance
  | Tier.LOW => lowGuidance

/-- What the prediction block renders for one request: probability, tier and
tier-indexed guidance (lines 227-265). -/
structure PredictionResult where
  probability : ℚ
  tier : Tier
  guidance : List String
  deriving DecidableEq, Repr

/-- The user-visible outcome of one press of the predict button:
  * `noop` — the guarded block `if predict and model:` is skipped entirely
    (line 212 with `model = None`);
  * `shown r` — the probability card and the tier block are rendered
    (lines 230-265);
  * `errorShown msg` — the `except` arm renders `st.error` with the message
    `Prediction Error: {e}` (lines 267-268). -/
inductive Outcome where
  | noop
  | shown (r : PredictionResult)
  | errorShown (msg : String)
  deriving DecidableEq, Repr

/-- One press of the predict button (lines 212-268): skipped when the model
is `None`; otherwise encode, call the classifier, and either render the
result or render the caught exception. -/
def runPrediction (model : Option Classifier) (i : PatientInput) : Outcome :=
  match model with
  | none => Outcome.noop
  | some c =>
    match c (encode i) with
    | Except.error e => Outcome.errorShown ("Prediction Error: " ++ e)
    | Except.ok p =>
        Outcome.shown { probability := p, tier := tierOf p,
                        guidance := guidance (tierOf p) }

/-- A sequence of independent predict presses served by one process with one
loaded-once artifact: requests are processed strictly in order, with no state
carried between them. -/
def processRequests (model : Option Classifier) : List PatientInput → List Outcome
  | [] => []
  | i :: rest => runPrediction model i :: processRequests model rest

/-- The error message `load_model` displays when the model file is missing
(line 97, apostrophes elided). -/
def modelMissingMsg : String :=
  "Model file svm_model.pkl not found. Please upload it."

/-- `load_model` (lines 92-100), with the filesystem abstracted as the
optional content of `svm_model.pkl`: when the file is present its artifact is
returned; on `FileNotFoundError` an error message is displayed and `None` is
returned.  The result is the loaded model paired with the list of messages
displayed at load time. -/
def load_model (file : Option Classifier) : Option Classifier × List String :=
  match file with
  | some c => (some c, [])
  | none => (none, [modelMissingMsg])

/-- Fixed sample input of the end-to-end scenario: codes 2, 3, 3, 1, 4 with
NLR 4.2. -/
def exampleInput : PatientInput :=
  { age := 2, degree := 3, t_stage := 3, ln_status := 1, molecular := 4,
    nlr := 21 / 5 }

/-- A sample admissible input sitting on the lower NLR boundary 0.1. -/
def boundaryInput : PatientInput :=
  { age := 1, degree := 1, t_stage := 1, ln_status := 0, molecular := 1,
    nlr := 1 / 10 }

/-- A sample input with NLR 0, outside the widget's domain. -/
def zeroNlrInput : PatientInput :=
  { age := 1, degree := 1, t_stage := 1, ln_status := 0, molecular := 1,
    nlr := 0 }

/-- A stub artifact whose scoring call returns probability 0.78. -/
def exampleClassifier : Classifier := fun _ => Except.ok (39 / 50)

/-- A stub artifact whose scoring call returns probability 0.9. -/
def anotherClassifier : Classifier := fun _ => Except.ok (9 / 10)

/-- A stub artifact whose scoring call raises with a shape-mismatch cause. -/
def failingClassifier : Classifier := fun _ => Except.error "shape mismatch"

/-- Whether an outcome surfaces an error message to the user. -/
def raisesError : Outcome → Bool
  | Outcome.errorShown _ => true
  | _ => false

/-- The guidance list rendered by an outcome, when a result is shown. -/
def shownGuidance : Outcome → Option (List String)
  | Outcome.shown r => some r.guidance
  | _ => none

/-- The probability rendered by an outcome, when a result is shown. -/
def shownProbability : Outcome → Option ℚ
  | Outcome.shown r => some r.probability
  | _ => none

/-- The prediction pipeline as reachable through the UI: the widgets only
emit admissible values, so an inadmissible input never enters the guarded
prediction block of lines 212-268. -/
def gatedRun (m : Option Classifier) (i : PatientInput) : Outcome :=
  if admissible i then runPrediction m i else Outcome.noop

/-- Sequential processing distributes over concatenation of request lists:
each outcome comes from its own request alone. -/
theorem processRequests_append (m : Option Classifier) (xs ys : List PatientInput) :
    processRequests m (xs ++ ys) =
      processRequests m xs ++ processRequests m ys := by
  induction xs with
  | nil => rfl
  | cons a t ih => simp [processRequests, ih]

/-- C1: the Risk Scorer assigns tier HIGH if and only if the probability is
at least 0.5, and the boundary value 0.5 itself is assigned HIGH. -/
theorem tier_threshold :
    (∀ p : ℚ, tierOf p = Tier.HIGH ↔ 1 / 2 ≤ p) ∧
    tierOf (1 / 2) = Tier.HIGH := by
  constructor
  · intro p
    unfold tierOf
    split <;> simp_all
  · unfold tierOf
    norm_num

/-- C2: the Feature Encoder always presents the six inputs under exactly the
canonical column names, in the fixed canonical order, identically on every
call. -/
theorem feature_order_invariant (i : PatientInput) :
    (encode i).columns =
      ["Age", "Degree_of_differentiation", "T_stage", "lymphaden_Status",
       "Molecular_typing", "NLR"] ∧
    (encode i).row =
      [(i.age : ℚ), (i.degree : ℚ), (i.t_stage : ℚ), (i.ln_status : ℚ),
       (i.molecular : ℚ), i.nlr] ∧
    ∀ j : PatientInput, (encode i).columns = (encode j).columns :=
  ⟨rfl, rfl, fun _ => rfl⟩

/-- C3 counterexample: the claim declares the NLR domain as the half-open
interval (0.1, 50.0], but the widget's domain includes its lower bound:
NLR = 0.1 is admissible and the resulting vector reaches the classifier. -/
theorem nlr_domain_counterexample :
    nlrInDomain (1 / 10) = true ∧
    specNlrDomain (1 / 10) = false ∧
    admissible boundaryInput = true ∧
    shownProbability (gatedRun (some exampleClassifier) boundaryInput) =
      some (39 / 50) := by
  have hadm : admissible boundaryInput = true := by
    norm_num [admissible, boundaryInput, ageOptions, degreeOptions,
      tStageOptions, lnOptions, molecularOptions, nlrInDomain, nlrMin, nlrMax]
  refine ⟨?_, ?_, hadm, ?_⟩
  · norm_num [nlrInDomain, nlrMin, nlrMax]
  · norm_num [specNlrDomain, nlrMin, nlrMax]
  · simp [gatedRun, hadm, runPrediction, exampleClassifier, shownProbability]

/-- C3 amended: any input with any field outside its declared domain —
one of its widget option codes out of range, or its NLR outside the closed
interval [0.1, 50.0], in particular NLR = 0 and NLR = 51 — is rejected
before scoring and never reaches the classifier. -/
theorem out_of_domain_never_scored (m : Option Classifier) (i : PatientInput)
    (h : admissible i = false) :
    gatedRun m i = Outcome.noop ∧
    (∀ r : PredictionResult, gatedRun m i ≠ Outcome.shown r) ∧
    (∀ x : ℚ, nlrInDomain x = false →
        ∀ j : PatientInput, j.nlr = x → admissible j = false) ∧
    nlrInDomain 0 = false ∧ nlrInDomain 51 = false := by
  have hg : gatedRun m i = Outcome.noop := by
    unfold gatedRun
    rw [h]
    simp
  refine ⟨hg, ?_, ?_, ?_, ?_⟩
  · intro r hr
    rw [hg] at hr
    exact Outcome.noConfusion hr
  · intro x hx j hj
    unfold admissible
    rw [hj, hx]
    simp
  · norm_num [nlrInDomain, nlrMin, nlrMax]
  · norm_num [nlrInDomain, nlrMin, nlrMax]

/-- C3 amended, witnessed at NLR = 0 with a loaded stub artifact. -/
theorem out_of_domain_never_scored_witness :
    admissible zeroNlrInput = false ∧
    gatedRun (some exampleClassifier) zeroNlrInput = Outcome.noop :=
  ⟨by norm_num [admissible, zeroNlrInput, ageOptions, degreeOptions,
      tStageOptions, lnOptions, molecularOptions, nlrInDomain, nlrMin,
      nlrMax],
   (out_of_domain_never_scored (some exampleClassifier) zeroNlrInput
      (by norm_num [admissible, zeroNlrInput, ageOptions, degreeOptions,
        tStageOptions, lnOptions, molecularOptions, nlrInDomain, nlrMin,
        nlrMax])).1⟩

/-- C4 counterexample: with the artifact never loaded, a press of the
predict button is a no-op; no error of any kind is raised or surfaced at
scoring time, contradicting the claimed ArtifactUnavailableError. -/
theorem no_artifact_error_counterexample :
    runPrediction none exampleInput = Outcome.noop ∧
    raisesError (runPrediction none exampleInput) = false :=
  ⟨rfl, rfl⟩

/-- C4 amended: if the classifier artifact was never loaded, no probability
is produced and no default probability is substituted — but no error is
raised at scoring time either; the scoring attempt is silently skipped,
and the only error message is the one displayed once at load time. -/
theorem no_artifact_no_probability (i : PatientInput) :
    runPrediction none i = Outcome.noop ∧
    shownProbability (runPrediction none i) = none ∧
    (∀ r : PredictionResult, runPrediction none i ≠ Outcome.shown r) ∧
    (load_model none).2 = [modelMissingMsg] :=
  ⟨rfl, rfl, fun _ hr => Outcome.noConfusion hr, rfl⟩

/-- C5: if the classifier invocation raises, the single request fails with
a surfaced error that preserves the underlying cause, no probability is
shown for that request, and every other request in the sequence is
unaffected. -/
theorem scoring_error_isolated (c : Classifier) (i : PatientInput) (e : String)
    (h : c (encode i) = Except.error e) :
    runPrediction (some c) i =
      Outcome.errorShown ("Prediction Error: " ++ e) ∧
    (∀ r : PredictionResult, runPrediction (some c) i ≠ Outcome.shown r) ∧
    ∀ pre post : List PatientInput,
      processRequests (some c) (pre ++ i :: post) =
        processRequests (some c) pre ++
          Outcome.errorShown ("Prediction Error: " ++ e) ::
            processRequests (some c) post := by
  have hrun : runPrediction (some c) i =
      Outcome.errorShown ("Prediction Error: " ++ e) := by
    simp [runPrediction, h]
  refine ⟨hrun, ?_, ?_⟩
  · intro r hr
    rw [hrun] at hr
    exact Outcome.noConfusion hr
  · intro pre post
    rw [processRequests_append]
    simp [processRequests, hrun]

/-- C5, witnessed with a stub artifact raising a shape-mismatch cause. -/
theorem scoring_error_isolated_witness :
    runPrediction (some failingClassifier) exampleInput =
      Outcome.errorShown ("Prediction Error: " ++ "shape mismatch") :=
  (scoring_error_isolated failingClassifier exampleInput "shape mismatch"
    rfl).1

/-- C6 counterexample: the rendered HIGH-tier guidance has exactly three
recommendations, not the four the claim lists — it contains no
multidisciplinary-review item. -/
theorem high_guidance_counterexample :
    (guidance Tier.HIGH).length = 3 ∧
    specHighGuidance.length = 4 ∧
    guidance Tier.HIGH ≠ specHighGuidance :=
  ⟨rfl, rfl, by decide⟩

/-- C6 amended: guidance depends only on the tier, not on the feature
values; every HIGH-tier result carries the same fixed three-item escalation
list (intensified adjuvant therapy, closer clinical surveillance, more
rigorous follow-up schedules) and every LOW-tier result carries the single
fixed reassurance statement. -/
theorem guidance_tier_indexed (c c' : Classifier) (i i' : PatientInput)
    (p p' : ℚ)
    (h : c (encode i) = Except.ok p) (h' : c' (encode i') = Except.ok p')
    (ht : tierOf p = tierOf p') :
    shownGuidance (runPrediction (some c) i) =
      shownGuidance (runPrediction (some c') i') ∧
    shownGuidance (runPrediction (some c) i) = some (guidance (tierOf p)) ∧
    guidance Tier.HIGH = highGuidance ∧
    guidance Tier.LOW = lowGuidance := by
  have hrun : runPrediction (some c) i =
      Outcome.shown { probability := p, tier := tierOf p,
                      guidance := guidance (tierOf p) } := by
    simp [runPrediction, h]
  have hrun' : runPrediction (some c') i' =
      Outcome.shown { probability := p', tier := tierOf p',
                      guidance := guidance (tierOf p') } := by
    simp [runPrediction, h']
  refine ⟨?_, ?_, rfl, rfl⟩
  · rw [hrun, hrun', ht]
    simp [shownGuidance]
  · rw [hrun]
    simp [shownGuidance]

/-- C6 amended, witnessed at two different classifiers and inputs landing in
the same tier. -/
theorem guidance_tier_indexed_witness :
    shownGuidance (runPrediction (some exampleClassifier) exampleInput) =
      shownGuidance (runPrediction (some anotherClassifier) boundaryInput) :=
  (guidance_tier_indexed exampleClassifier anotherClassifier exampleInput
    boundaryInput (39 / 50) (9 / 10) rfl rfl (by norm_num [tierOf])).1

/-- C7: scoring is deterministic — two consecutive requests with the same
FeatureVector and the same loaded artifact yield identical results. -/
theorem scorer_deterministic (m : Option Classifier) (i : PatientInput) :
    processRequests m [i, i] = [runPrediction m i, runPrediction m i] ∧
    (processRequests m [i, i])[0]? = (processRequests m [i, i])[1]? :=
  ⟨rfl, rfl⟩

/-- C8: whenever the classifier honors its contract and returns a
probability in [0, 1], the probability field of the rendered result is that
same value, and so lies in [0, 1]. -/
theorem probability_in_unit_interval (c : Classifier) (i : PatientInput)
    (p : ℚ)
    (h : c (encode i) = Except.ok p) (h0 : 0 ≤ p) (h1 : p ≤ 1) :
    shownProbability (runPrediction (some c) i) = some p ∧
    0 ≤ p ∧ p ≤ 1 := by
  have hrun : runPrediction (some c) i =
      Outcome.shown { probability := p, tier := tierOf p,
                      guidance := guidance (tierOf p) } := by
    simp [runPrediction, h]
  exact ⟨by rw [hrun]; rfl, h0, h1⟩

/-- C8, witnessed at the stub artifact returning 0.78. -/
theorem probability_in_unit_interval_witness :
    shownProbability (runPrediction (some exampleClassifier) exampleInput) =
      some (39 / 50) ∧
    (0 : ℚ) ≤ 39 / 50 ∧ (39 / 50 : ℚ) ≤ 1 :=
  probability_in_unit_interval exampleClassifier exampleInput (39 / 50) rfl
    (by norm_num) (by norm_num)

/-- C9: the end-to-end scenario — input codes 2, 3, 3, 1, 4 with NLR 4.2
encode to the row [2, 3, 3, 1, 4, 4.2] under the canonical columns; a
classifier returning 0.78 yields probability 0.78, tier HIGH, and the fixed
escalation guidance. -/
theorem example_end_to_end :
    encode exampleInput =
      { columns := featureColumns,
        row := [2, 3, 3, 1, 4, 21 / 5] } ∧
    runPrediction (some exampleClassifier) exampleInput =
      Outcome.shown { probability := 39 / 50, tier := Tier.HIGH,
                      guidance := highGuidance } := by
  constructor
  · norm_num [encode, exampleInput, featureRow, featureColumns,
      DataFrame.mk.injEq]
  · norm_num [runPrediction, exampleClassifier, exampleInput, tierOf,
      guidance]

/-- C10: when the model file is absent at startup, load_model displays a
load-time error and returns None, and thereafter every press of the predict
button is a silent no-op: no prediction is computed, nothing is shown, and
no error is raised at prediction time. -/
theorem missing_artifact_silent_noop :
    load_model none = (none, [modelMissingMsg]) ∧
    ∀ i : PatientInput,
      runPrediction (load_model none).1 i = Outcome.noop ∧
      raisesError (runPrediction (load_model none).1 i) = false ∧
      shownProbability (runPrediction (load_model none).1 i) = none :=
  ⟨rfl, fun _ => ⟨rfl, rfl, rfl⟩⟩
